import Mathlib

/-!
Shallow embedding of the rust-service repository (axum HTTP service with a
Prometheus-style observability middleware), for checking its natural-language
specification.

Source files embedded: src/metrics.rs (Metrics, metrics_middleware),
src/handlers.rs (get_item, health), src/error.rs (AppError, IntoResponse),
src/state.rs (Config::from_env and the env parsers), src/app.rs (build_router:
route table, TraceLayer, layer ordering).

Machine integers are modelled as Nat/Int with explicit range checks where the
source checks them (u16/u32/u64/i32 parsing); durations are modelled in whole
seconds as the source constructs them via Duration::from_secs; the monotonic
clock is abstracted as an `elapsed` rational passed to the middleware.
-/

set_option autoImplicit false

namespace Svc

/-- Ordered label tuple identifying one time series inside a metric family. -/
abbrev Labels := List String

/-- An HTTP response: numeric status, header list, body text.
Mirrors the parts of axum's Response the embedded code reads or writes. -/
structure Response where
  status : Nat
  headers : List (String × String)
  body : String
deriving DecidableEq

/-- The http crate's HeaderMap::insert: replaces any existing value for the
key, otherwise adds the pair.  Lookup order is irrelevant to the claims, so
the new pair is put in front and stale pairs for the key are dropped. -/
def Response.insertHeader (r : Response) (k v : String) : Response :=
  { r with headers := (k, v) :: r.headers.filter (fun p => !(p.1 == k)) }

/-- Value of a header, if present. -/
def Response.headerValue (r : Response) (k : String) : Option String :=
  (r.headers.find? (fun p => p.1 == k)).map (fun p => p.2)

/-- Result of running the wrapped handler chain: a response, or abnormal
termination (a Rust panic unwinding through the middleware future).  The
middleware source has no catch: a panic skips all code after the await. -/
inductive Outcome where
  | ok (res : Response)
  | panicked
deriving DecidableEq

/-- The error enum of src/error.rs.  The source variant Io is named IoError
here because of Lean naming constraints; fields carry the formatted message
text in place of the underlying sqlx/io error values. -/
inductive AppError where
  | MissingEnv (v : String)
  | InvalidConfig (msg : String)
  | NotFound (msg : String)
  | Db (msg : String)
  | IoError (msg : String)
deriving DecidableEq

/-- JSON string escaping as serde_json performs it, restricted to the two
characters that can occur in this service's messages (quote, backslash);
no message in the source contains control characters. -/
def escChar (c : Char) : List Char :=
  if c = '"' ∨ c = '\\' then ['\\', c] else [c]

/-- Escape a whole string for inclusion in a JSON string literal. -/
def jsonEscape (s : String) : String :=
  String.mk (s.data.foldr (fun c acc => escChar c ++ acc) [])

/-- Serialization of error.rs's ErrorBody \x7b error: msg \x7d by serde_json. -/
def jsonErrorBody (msg : String) : String :=
  "\x7b\"error\":\"" ++ jsonEscape msg ++ "\"\x7d"

/-- AppError's IntoResponse impl (src/error.rs): status/message table, body
serialized as JSON via axum's Json wrapper (content-type application/json). -/
def AppError.into_response : AppError → Response
  | .MissingEnv v =>
      { status := 500, headers := [("content-type", "application/json")],
        body := jsonErrorBody ("Missing env var: " ++ v) }
  | .InvalidConfig msg =>
      { status := 400, headers := [("content-type", "application/json")],
        body := jsonErrorBody msg }
  | .NotFound msg =>
      { status := 404, headers := [("content-type", "application/json")],
        body := jsonErrorBody msg }
  | .Db e =>
      { status := 500, headers := [("content-type", "application/json")],
        body := jsonErrorBody ("DB error: " ++ e) }
  | .IoError e =>
      { status := 500, headers := [("content-type", "application/json")],
        body := jsonErrorBody ("IO error: " ++ e) }

/-- Outcome of the store query issued by get_item (sqlx fetch_optional plus
the row try_get calls, folded into one result at the interface boundary the
spec draws around ResourceStore). -/
inductive QueryResult where
  | found (id : Int) (name : String)
  | notFound
  | dbError (msg : String)
deriving DecidableEq

/-- The store boundary: what the single query of get_item returns for an id. -/
abbrev Store := Int → QueryResult

/-- A handler result together with whether the handler reached the store
(issued its query), used to state that validation precedes store access. -/
structure HandlerResult where
  response : Response
  storeQueried : Bool
deriving DecidableEq

/-- serde serialization of ItemDto. -/
def itemJson (id : Int) (name : String) : String :=
  "\x7b\"id\":" ++ toString id ++ ",\"name\":\"" ++ jsonEscape name ++ "\"\x7d"

/-- src/handlers.rs get_item: reject non-positive ids before querying, then
map the query result (row, absent row, db error) to a response.  The id is
an i32 in the source; its range plays no role in the branch structure. -/
def get_item (store : Store) (id : Int) : HandlerResult :=
  if id ≤ 0 then
    { response := (AppError.InvalidConfig "id must be a positive integer").into_response,
      storeQueried := false }
  else
    match store id with
    | .dbError e =>
        { response := (AppError.Db e).into_response, storeQueried := true }
    | .notFound =>
        { response := (AppError.NotFound ("Item " ++ toString id ++ " not found")).into_response,
          storeQueried := true }
    | .found rid name =>
        { response := { status := 200, headers := [("content-type", "application/json")],
                        body := itemJson rid name },
          storeQueried := true }

/-- src/handlers.rs health: a static "ok" string, which axum converts to a
200 text/plain response. -/
def healthResponse : Response :=
  { status := 200, headers := [("content-type", "text/plain; charset=utf-8")], body := "ok" }

/-- Decimal digit value of a character, if it is one. -/
def charDigit? (c : Char) : Option Nat :=
  if '0' ≤ c ∧ c ≤ '9' then some (c.toNat - '0'.toNat) else none

/-- Accumulate a decimal value over characters; any non-digit fails. -/
def digitsGo : List Char → Nat → Option Nat
  | [], acc => some acc
  | c :: rest, acc =>
    match charDigit? c with
    | some d => digitsGo rest (acc * 10 + d)
    | none => none

/-- Value of a non-empty all-digit character list. -/
def digitsVal (cs : List Char) : Option Nat :=
  match cs with
  | [] => none
  | _ => digitsGo cs 0

/-- Rust unsigned-integer FromStr shape: an optional leading plus sign then
one or more decimal digits. -/
def parseUnsigned (s : String) : Option Nat :=
  match s.data with
  | '+' :: rest => digitsVal rest
  | cs => digitsVal cs

/-- Rust signed-integer FromStr shape: optional sign then decimal digits. -/
def parseSigned (s : String) : Option Int :=
  match s.data with
  | '-' :: rest => (digitsVal rest).map (fun n => -(n : Int))
  | '+' :: rest => (digitsVal rest).map (fun n => (n : Int))
  | cs => (digitsVal cs).map (fun n => (n : Int))

/-- str::parse::<u16>, with the type's range making overflow an error. -/
def parse_u16 (s : String) : Option Nat :=
  (parseUnsigned s).bind (fun n => if n ≤ 65535 then some n else none)

/-- str::parse::<u32>. -/
def parse_u32 (s : String) : Option Nat :=
  (parseUnsigned s).bind (fun n => if n ≤ 4294967295 then some n else none)

/-- str::parse::<u64>. -/
def parse_u64 (s : String) : Option Nat :=
  (parseUnsigned s).bind (fun n => if n ≤ 18446744073709551615 then some n else none)

/-- str::parse::<i32> as used by axum's Path<i32> extractor. -/
def parse_i32 (s : String) : Option Int :=
  (parseSigned s).bind (fun n => if -2147483648 ≤ n ∧ n ≤ 2147483647 then some n else none)

/-- str::starts_with for a literal prefix, computed structurally on the
character data. -/
def strStartsWith (s p : String) : Bool :=
  p.data.isPrefixOf s.data

/-- The process environment at startup: a partial map from variable names. -/
abbrev Env := String → Option String

/-- state.rs parse_u16_env: read the variable and parse it, either failure
giving none. -/
def parse_u16_env (env : Env) (key : String) : Option Nat :=
  (env key).bind parse_u16

/-- state.rs parse_u32_env. -/
def parse_u32_env (env : Env) (key : String) : Option Nat :=
  (env key).bind parse_u32

/-- state.rs parse_u64_env. -/
def parse_u64_env (env : Env) (key : String) : Option Nat :=
  (env key).bind parse_u64

/-- state.rs Config, with the two Durations carried as whole seconds, the
unit in which the source builds them (Duration::from_secs). -/
structure Config where
  database_url : String
  port : Nat
  pool_max_connections : Nat
  pool_min_connections : Nat
  db_connect_timeout_secs : Nat
  db_acquire_timeout_secs : Nat
deriving DecidableEq

/-- state.rs Config::from_env: required DATABASE_URL with scheme check, then
each numeric knob read with a default for a missing or unparseable value,
followed by the source's range guards in source order.  The source binds
each knob to a local before its guard; the binding is inlined here. -/
def Config.from_env (env : Env) : Except AppError Config :=
  match env "DATABASE_URL" with
  | none => .error (.MissingEnv "DATABASE_URL")
  | some database_url =>
    if !(strStartsWith database_url "postgres://" || strStartsWith database_url "postgresql://") then
      .error (.InvalidConfig "DATABASE_URL must start with postgres:// or postgresql://")
    else if (parse_u16_env env "PORT").getD 8080 = 0 then
      .error (.InvalidConfig "PORT must be between 1 and 65535")
    else if (parse_u32_env env "DB_POOL_MAX_CONNECTIONS").getD 10 = 0 then
      .error (.InvalidConfig "DB_POOL_MAX_CONNECTIONS must be >= 1")
    else if (parse_u32_env env "DB_POOL_MIN_CONNECTIONS").getD 0 >
        (parse_u32_env env "DB_POOL_MAX_CONNECTIONS").getD 10 then
      .error (.InvalidConfig "DB_POOL_MIN_CONNECTIONS must be <= DB_POOL_MAX_CONNECTIONS")
    else if (parse_u64_env env "DB_CONNECT_TIMEOUT_SECS").getD 5 = 0 ∨
        (parse_u64_env env "DB_CONNECT_TIMEOUT_SECS").getD 5 > 60 then
      .error (.InvalidConfig "DB_CONNECT_TIMEOUT_SECS must be between 1 and 60")
    else if (parse_u64_env env "DB_ACQUIRE_TIMEOUT_SECS").getD 2 = 0 ∨
        (parse_u64_env env "DB_ACQUIRE_TIMEOUT_SECS").getD 2 > 60 then
      .error (.InvalidConfig "DB_ACQUIRE_TIMEOUT_SECS must be between 1 and 60")
    else
      .ok { database_url := database_url,
            port := (parse_u16_env env "PORT").getD 8080,
            pool_max_connections := (parse_u32_env env "DB_POOL_MAX_CONNECTIONS").getD 10,
            pool_min_connections := (parse_u32_env env "DB_POOL_MIN_CONNECTIONS").getD 0,
            db_connect_timeout_secs := (parse_u64_env env "DB_CONNECT_TIMEOUT_SECS").getD 5,
            db_acquire_timeout_secs := (parse_u64_env env "DB_ACQUIRE_TIMEOUT_SECS").getD 2 }

/-- The histogram bucket upper bounds configured in Metrics::new
(src/metrics.rs), in seconds, as exact rationals. -/
def svcBuckets : List ℚ :=
  [0.0005, 0.001, 0.002, 0.005, 0.01, 0.02, 0.05, 0.1, 0.2, 0.5, 1.0]

/-- State of one histogram time series: cumulative per-bucket counts aligned
with svcBuckets, a running sum, and a total observation count (the implicit
+Inf bucket of the exposition format). -/
structure HistState where
  bucketCounts : List Nat
  sum : ℚ
  count : Nat
deriving DecidableEq

/-- Modelled from the spec: observeHistogram semantics of the external
prometheus crate (the registry implementation is outside this repository).
Each observation increments every bucket whose upper bound is at least the
value, adds the value to the running sum, and counts the observation. -/
def HistState.observe (h : HistState) (v : ℚ) : HistState :=
  { bucketCounts := List.zipWith (fun ub c => if v ≤ ub then c + 1 else c) svcBuckets h.bucketCounts,
    sum := h.sum + v,
    count := h.count + 1 }

/-- A fresh histogram time series: all buckets at zero. -/
def histNew : HistState :=
  { bucketCounts := List.replicate svcBuckets.length 0, sum := 0, count := 0 }

/-- The three instrument families Metrics::new registers, each a lazily
populated map from a label tuple to its time series.  Family names in the
source: http_requests_received_total (counter, labels method/path/code),
http_request_duration_seconds (histogram, same labels),
http_requests_in_progress (gauge, label path). -/
structure Registry where
  counters : List (Labels × Nat)
  hists : List (Labels × HistState)
  gauges : List (Labels × Int)
deriving DecidableEq

/-- The registry as Metrics::new leaves it: families registered, no series. -/
def emptyRegistry : Registry := { counters := [], hists := [], gauges := [] }

/-- Modelled from the spec: with_label_values of the external prometheus
crate creates the series for a label tuple on first use (from a default) and
then applies the operation to it. -/
def bumpAssoc {β : Type} (k : Labels) (d : β) (f : β → β) : List (Labels × β) → List (Labels × β)
  | [] => [(k, f d)]
  | (k₀, v) :: rest =>
    if k₀ = k then (k₀, f v) :: rest else (k₀, v) :: bumpAssoc k d f rest

/-- Lookup of a label tuple's series. -/
def lookupAssoc {β : Type} (k : Labels) : List (Labels × β) → Option β
  | [] => none
  | (k₀, v) :: rest => if k₀ = k then some v else lookupAssoc k rest

/-- One registry mutation issued by the middleware, naming the instrument it
targets: req_total.inc, req_duration.observe, or in_flight add (inc is +1,
dec is -1).  Keeping the operations as a list preserves their order. -/
inductive RegistryOp where
  | incReqTotal (labels : Labels)
  | observeReqDuration (labels : Labels) (v : ℚ)
  | addInFlight (labels : Labels) (delta : Int)
deriving DecidableEq

/-- Effect of one operation on the registry. -/
def Registry.applyOp (r : Registry) : RegistryOp → Registry
  | .incReqTotal ls => { r with counters := bumpAssoc ls 0 (fun n => n + 1) r.counters }
  | .observeReqDuration ls v => { r with hists := bumpAssoc ls histNew (fun h => h.observe v) r.hists }
  | .addInFlight ls d => { r with gauges := bumpAssoc ls 0 (fun g => g + d) r.gauges }

/-- Effect of a sequence of operations, in order. -/
def Registry.applyOps (r : Registry) (ops : List RegistryOp) : Registry :=
  ops.foldl Registry.applyOp r

/-- Current value of a counter series (absent series read as 0, matching the
exposition of a never-touched label tuple). -/
def Registry.counterValue (r : Registry) (ls : Labels) : Nat :=
  (lookupAssoc ls r.counters).getD 0

/-- Current value of a gauge series (absent series read as 0). -/
def Registry.gaugeValue (r : Registry) (ls : Labels) : Int :=
  (lookupAssoc ls r.gauges).getD 0

/-- The router's item-route parameter: src/app.rs registers
/api/item/\x7bid\x7d, and axum's matcher binds \x7bid\x7d to exactly one
non-empty segment.  Returns the captured segment text. -/
def itemParam (path : String) : Option String :=
  if "/api/item/".data.isPrefixOf path.data then
    let rest := path.data.drop "/api/item/".data.length
    if rest ≠ [] ∧ rest.all (fun c => c != '/') then some (String.mk rest) else none
  else none

/-- The route table of build_router (src/app.rs): the MatchedPath extension a
request carries when it reaches the middleware, i.e. the registered route
template that matched the request path, if any. -/
def matchRoute (path : String) : Option String :=
  if path = "/health" then some "/health"
  else if path = "/metrics" then some "/metrics"
  else if (itemParam path).isSome then some "/api/item/\x7bid\x7d"
  else none

/-- Metrics::path_label (src/metrics.rs): the MatchedPath extension when
present, otherwise the raw request path. -/
def path_label (matched : Option String) (rawPath : String) : String :=
  match matched with
  | some m => m
  | none => rawPath

/-- axum's Path<i32> rejection response for an unparseable path parameter;
its exact body text is framework-supplied and not claim-relevant. -/
def pathRejectionResponse : Response :=
  { status := 400, headers := [("content-type", "text/plain; charset=utf-8")],
    body := "Invalid URL: Cannot parse path parameter" }

/-- The item route as dispatched by the router: extract the \x7bid\x7d
segment, parse it as i32 (the Path<i32> extractor), and run get_item. -/
def routeItem (store : Store) (uri : String) : Response :=
  match itemParam uri with
  | some seg =>
    match parse_i32 seg with
    | some id => (get_item store id).response
    | none => pathRejectionResponse
  | none => pathRejectionResponse

/-- Result of running metrics_middleware: the outcome passed on to the
caller and the registry operations performed, in order. -/
structure MwResult where
  outcome : Outcome
  ops : List RegistryOp
deriving DecidableEq

/-- src/metrics.rs metrics_middleware.  Exempt path labels (/metrics,
/health) are forwarded untouched.  Otherwise: gauge increment, handler,
then (only if the handler future returns normally) counter increment,
histogram observation, gauge decrement and the x-service header.  A panic
unwinds past the remaining statements, which is why the panicked branch
carries only the pre-handler gauge increment. -/
def metrics_middleware (method pathLabel : String) (handler : Outcome) (elapsed : ℚ) : MwResult :=
  if pathLabel == "/metrics" || pathLabel == "/health" then
    { outcome := handler, ops := [] }
  else
    match handler with
    | .panicked =>
      { outcome := .panicked, ops := [.addInFlight [pathLabel] 1] }
    | .ok res =>
      let code := toString res.status
      { outcome := .ok (res.insertHeader "x-service" "rust-axum"),
        ops := [ .addInFlight [pathLabel] 1,
                 .incReqTotal [method, pathLabel, code],
                 .observeReqDuration [method, pathLabel, code] elapsed,
                 .addInFlight [pathLabel] (-1) ] }

/-- A tracing span as created by the TraceLayer in build_router: it records
the method and the raw request URI. -/
structure TraceEvent where
  method : String
  uri : String
deriving DecidableEq

/-- Result of the full layered pipeline for one request. -/
structure PipelineResult where
  outcome : Outcome
  ops : List RegistryOp
  spans : List TraceEvent
deriving DecidableEq

/-- The middleware stack of build_router (src/app.rs) around a handler.
Layer order: routing resolves MatchedPath, the metrics middleware (added
last, hence outermost) runs first, and the TraceLayer inside it creates an
http_request span for every request it forwards — the metrics middleware
always forwards to it, on exempt and non-exempt paths alike. -/
def pipeline (method uri : String) (matched : Option String) (handler : Outcome) (elapsed : ℚ) :
    PipelineResult :=
  let pl := path_label matched uri
  let mw := metrics_middleware method pl handler elapsed
  { outcome := mw.outcome, ops := mw.ops, spans := [{ method := method, uri := uri }] }

/-- A concrete startup environment in which PORT is set to text that does
not parse as a u16. -/
def envBadPort : Env := fun k =>
  if k = "DATABASE_URL" then some "postgres://db"
  else if k = "PORT" then some "abc"
  else none

/-- A concrete minimal valid startup environment. -/
def envMinimal : Env := fun k =>
  if k = "DATABASE_URL" then some "postgres://db" else none

/-- A concrete startup environment in which PORT parses but violates the
range check (port 0). -/
def envPortZero : Env := fun k =>
  if k = "DATABASE_URL" then some "postgres://db"
  else if k = "PORT" then some "0"
  else none

/-- A store holding no records at all. -/
def emptyStore : Store := fun _ => .notFound

section Lemmas

/-- Updating an association list at a key, then reading that key, yields the
update applied to the previous value (or to the creation default). -/
theorem lookupAssoc_bumpAssoc_self {β : Type} (k : Labels) (d : β) (f : β → β)
    (l : List (Labels × β)) :
    lookupAssoc k (bumpAssoc k d f l) = some (f ((lookupAssoc k l).getD d)) := by
  induction l with
  | nil => simp [bumpAssoc, lookupAssoc]
  | cons p rest ih =>
    obtain ⟨k₀, v⟩ := p
    by_cases h : k₀ = k
    · simp [bumpAssoc, lookupAssoc, h]
    · simp [bumpAssoc, lookupAssoc, h, ih]

/-- Pointwise description of zipWith under getD, inside the common length. -/
theorem getD_zipWith_bucket (f : ℚ → Nat → Nat) :
    ∀ (as : List ℚ) (bs : List Nat) (i : Nat), i < as.length → i < bs.length →
      (List.zipWith f as bs).getD i 0 = f (as.getD i 0) (bs.getD i 0) := by
  intro as
  induction as with
  | nil => intro bs i h _; simp at h
  | cons a as ih =>
    intro bs i h1 h2
    cases bs with
    | nil => simp at h2
    | cons b bs =>
      cases i with
      | zero => rfl
      | succ n =>
        simp only [List.zipWith, List.getD_cons_succ]
        exact ih bs n (by simpa using h1) (by simpa using h2)

/-- Any value parse_u16_env accepts fits in a u16. -/
theorem parse_u16_env_le (env : Env) (k : String) (n : Nat) :
    parse_u16_env env k = some n → n ≤ 65535 := by
  intro h
  unfold parse_u16_env parse_u16 at h
  obtain ⟨s, hs, hbind⟩ := Option.bind_eq_some.mp h
  obtain ⟨m, hm, hif⟩ := Option.bind_eq_some.mp hbind
  split at hif
  · cases hif
    omega
  · cases hif

/-- The item-route matcher captures the appended segment when it is a single
non-empty slash-free segment. -/
theorem itemParam_append (s : String) (h1 : s.data ≠ [])
    (h2 : s.data.all (fun c => c != '/') = true) :
    itemParam ("/api/item/" ++ s) = some (String.mk s.data) := by
  have hd : ("/api/item/" ++ s).data = "/api/item/".data ++ s.data := String.data_append _ _
  unfold itemParam
  rw [hd]
  rw [List.isPrefixOf_iff_prefix.mpr (List.prefix_append _ _)]
  simp only [List.drop_left]
  simp [h1, h2]

/-- No item-route path is the health path. -/
theorem ne_health_append (s : String) : ¬ ("/api/item/" ++ s) = "/health" := by
  intro h
  have hd := congrArg String.data h
  rw [String.data_append] at hd
  simp at hd

/-- No item-route path is the metrics path. -/
theorem ne_metrics_append (s : String) : ¬ ("/api/item/" ++ s) = "/metrics" := by
  intro h
  have hd := congrArg String.data h
  rw [String.data_append] at hd
  simp at hd

/-- Any single non-empty slash-free segment under /api/item/ resolves to
the registered item route template. -/
theorem matchRoute_item (s : String) (h1 : s.data ≠ [])
    (h2 : s.data.all (fun c => c != '/') = true) :
    matchRoute ("/api/item/" ++ s) = some "/api/item/\x7bid\x7d" := by
  unfold matchRoute
  rw [if_neg (ne_health_append s), if_neg (ne_metrics_append s), itemParam_append s h1 h2]
  simp

end Lemmas

/-- Claim C1: the in-flight gauge is claimed to return to its pre-request
value on every exit from the handler chain, including abnormal termination
(panic/abort), via a scoped-release pattern.  The source decrements only on
the normal return path after the handler await, with no scope guard, so a
panicking handler leaves the gauge permanently elevated: evaluating the
middleware on a non-exempt request whose handler panics shows the gauge at
1 after the request against 0 before it. -/
theorem c1_inflight_gauge_leaks_on_panic :
    Registry.gaugeValue
      (Registry.applyOps emptyRegistry
        (metrics_middleware "GET" "/api/item/\x7bid\x7d" .panicked 0).ops)
      ["/api/item/\x7bid\x7d"] = 1 ∧
    Registry.gaugeValue emptyRegistry ["/api/item/\x7bid\x7d"] = 0 := by
  constructor <;> decide

/-- Claim C2, counterexample: the claim says exempt requests get no
tracing-span creation, but the TraceLayer in build_router wraps every
request independently of the metrics exemption, so a request to /health
does create one http_request span. -/
theorem c2_span_created_for_exempt_counterexample :
    (pipeline "GET" "/health" (matchRoute "/health") (.ok healthResponse) 0).spans =
      [{ method := "GET", uri := "/health" }] ∧
    [{ method := "GET", uri := "/health" }] ≠ ([] : List TraceEvent) := by
  constructor
  · rfl
  · decide

/-- Claim C2, amended: for every request whose path label is /health or
/metrics the middleware performs no metrics instrumentation — no registry
operation at all, so counter, histogram and in-flight gauge are untouched —
and the handler's outcome is returned unmodified; a tracing span is still
created for the request by the trace layer. -/
theorem c2_exempt_no_metrics_but_span_created :
    ∀ (method uri : String) (matched : Option String) (handler : Outcome)
      (elapsed : ℚ) (reg : Registry),
    path_label matched uri = "/health" ∨ path_label matched uri = "/metrics" →
    (pipeline method uri matched handler elapsed).ops = [] ∧
    Registry.applyOps reg (pipeline method uri matched handler elapsed).ops = reg ∧
    (pipeline method uri matched handler elapsed).outcome = handler ∧
    (pipeline method uri matched handler elapsed).spans = [{ method := method, uri := uri }] := by
  intro m u matched handler e reg h
  rcases h with h | h <;>
    simp [pipeline, metrics_middleware, h, Registry.applyOps]

/-- Claim C2, witness: the amended exemption theorem applied to a concrete
GET /health request over the empty registry. -/
theorem c2_exempt_witness :
    (path_label (some "/health") "/health" = "/health" ∨
      path_label (some "/health") "/health" = "/metrics") ∧
    ((pipeline "GET" "/health" (some "/health") (.ok healthResponse) 0).ops = [] ∧
     Registry.applyOps emptyRegistry
       (pipeline "GET" "/health" (some "/health") (.ok healthResponse) 0).ops = emptyRegistry ∧
     (pipeline "GET" "/health" (some "/health") (.ok healthResponse) 0).outcome =
       .ok healthResponse ∧
     (pipeline "GET" "/health" (some "/health") (.ok healthResponse) 0).spans =
       [{ method := "GET", uri := "/health" }]) :=
  ⟨Or.inl rfl,
   c2_exempt_no_metrics_but_span_created "GET" "/health" (some "/health")
     (.ok healthResponse) 0 emptyRegistry (Or.inl rfl)⟩

/-- Claim C3: the path label is the router's resolved route template when
one exists and the raw literal path otherwise; /api/item/1 and /api/item/42
resolve to the single template label, and in general any single non-empty
slash-free id segment under /api/item/ yields that same one label. -/
theorem c3_path_label_template :
    (∀ (t raw : String), path_label (some t) raw = t) ∧
    (∀ raw : String, path_label none raw = raw) ∧
    matchRoute "/api/item/1" = some "/api/item/\x7bid\x7d" ∧
    matchRoute "/api/item/42" = some "/api/item/\x7bid\x7d" ∧
    path_label (matchRoute "/api/item/1") "/api/item/1" =
      path_label (matchRoute "/api/item/42") "/api/item/42" ∧
    (∀ s : String, s.data ≠ [] → s.data.all (fun c => c != '/') = true →
      matchRoute ("/api/item/" ++ s) = some "/api/item/\x7bid\x7d") :=
  ⟨fun _ _ => rfl, fun _ => rfl, rfl, rfl, rfl, matchRoute_item⟩

/-- Claim C3, witness: the template theorem applied to the concrete id
segment 7. -/
theorem c3_path_label_template_witness :
    ("7".data ≠ [] ∧ "7".data.all (fun c => c != '/') = true) ∧
    matchRoute ("/api/item/" ++ "7") = some "/api/item/\x7bid\x7d" :=
  ⟨⟨by decide, by decide⟩,
   c3_path_label_template.2.2.2.2.2 "7" (by decide) (by decide)⟩

/-- Claim C4, counterexample: the claim says the x-service header is
attached for every request, exempt or non-exempt, but the exempt early
return in metrics_middleware bypasses header injection: a /health request's
response comes back without the header. -/
theorem c4_no_header_on_exempt_counterexample :
    (metrics_middleware "GET" "/health" (.ok healthResponse) 0).outcome =
      .ok healthResponse ∧
    healthResponse.headerValue "x-service" = none := by
  constructor <;> rfl

/-- Claim C4, amended: the middleware attaches the static header
x-service: rust-axum to the outgoing response of every non-exempt request;
for exempt path labels (/health, /metrics) the early return skips it. -/
theorem c4_service_header_nonexempt :
    ∀ (method path : String) (res : Response) (elapsed : ℚ),
    ¬ path = "/metrics" → ¬ path = "/health" →
    ∃ r, (metrics_middleware method path (.ok res) elapsed).outcome = .ok r ∧
      r.headerValue "x-service" = some "rust-axum" := by
  intro m p r e h1 h2
  refine ⟨r.insertHeader "x-service" "rust-axum", ?_, ?_⟩
  · simp [metrics_middleware, h1, h2]
  · rfl

/-- Claim C4, witness: the header theorem applied to a concrete non-exempt
request to the item route. -/
theorem c4_service_header_witness :
    (¬ "/api/item/\x7bid\x7d" = "/metrics" ∧ ¬ "/api/item/\x7bid\x7d" = "/health") ∧
    ∃ r, (metrics_middleware "GET" "/api/item/\x7bid\x7d" (.ok healthResponse) 0).outcome =
        .ok r ∧ r.headerValue "x-service" = some "rust-axum" :=
  ⟨⟨by decide, by decide⟩,
   c4_service_header_nonexempt "GET" "/api/item/\x7bid\x7d" healthResponse 0
     (by decide) (by decide)⟩

/-- Claim C5, counterexample: the claim says no invalid configuration value
is ever silently accepted or replaced, but an environment with PORT set to
the unparseable text abc loads successfully, the invalid value silently
replaced by the default 8080. -/
theorem c5_unparseable_port_accepted_counterexample :
    envBadPort "PORT" = some "abc" ∧
    parse_u16 "abc" = none ∧
    Config.from_env envBadPort =
      .ok { database_url := "postgres://db", port := 8080, pool_max_connections := 10,
            pool_min_connections := 0, db_connect_timeout_secs := 5,
            db_acquire_timeout_secs := 2 } :=
  ⟨rfl, rfl, rfl⟩

/-- Claim C5, amended: a missing DATABASE_URL, a DATABASE_URL without the
postgres scheme, and every supplied value that parses but violates a range
check (port 0, pool max 0, pool min above pool max, either timeout 0 or
above 60) are fatal startup errors; but a numeric value that is missing or
fails integer parsing is silently replaced by its built-in default (every
accepted configuration carries exactly the parsed-or-default knobs). -/
theorem c5_validation_and_defaults : ∀ (env : Env),
    (env "DATABASE_URL" = none → ∃ e, Config.from_env env = .error e) ∧
    (∀ cfg, Config.from_env env = .ok cfg →
      cfg.port = (parse_u16_env env "PORT").getD 8080 ∧
      cfg.pool_max_connections = (parse_u32_env env "DB_POOL_MAX_CONNECTIONS").getD 10 ∧
      cfg.pool_min_connections = (parse_u32_env env "DB_POOL_MIN_CONNECTIONS").getD 0 ∧
      cfg.db_connect_timeout_secs = (parse_u64_env env "DB_CONNECT_TIMEOUT_SECS").getD 5 ∧
      cfg.db_acquire_timeout_secs = (parse_u64_env env "DB_ACQUIRE_TIMEOUT_SECS").getD 2) ∧
    ∀ url, env "DATABASE_URL" = some url →
      ((strStartsWith url "postgres://" || strStartsWith url "postgresql://") = false →
        ∃ e, Config.from_env env = .error e) ∧
      ((parse_u16_env env "PORT").getD 8080 = 0 → ∃ e, Config.from_env env = .error e) ∧
      ((parse_u32_env env "DB_POOL_MAX_CONNECTIONS").getD 10 = 0 →
        ∃ e, Config.from_env env = .error e) ∧
      ((parse_u32_env env "DB_POOL_MIN_CONNECTIONS").getD 0 >
          (parse_u32_env env "DB_POOL_MAX_CONNECTIONS").getD 10 →
        ∃ e, Config.from_env env = .error e) ∧
      ((parse_u64_env env "DB_CONNECT_TIMEOUT_SECS").getD 5 = 0 ∨
          (parse_u64_env env "DB_CONNECT_TIMEOUT_SECS").getD 5 > 60 →
        ∃ e, Config.from_env env = .error e) ∧
      ((parse_u64_env env "DB_ACQUIRE_TIMEOUT_SECS").getD 2 = 0 ∨
          (parse_u64_env env "DB_ACQUIRE_TIMEOUT_SECS").getD 2 > 60 →
        ∃ e, Config.from_env env = .error e) := by
  intro env
  refine ⟨?_, ?_, ?_⟩
  · intro hnone
    unfold Config.from_env
    rw [hnone]
    exact ⟨_, rfl⟩
  · intro cfg h
    unfold Config.from_env at h
    split at h
    · exact Except.noConfusion h
    next url hurl =>
      split at h
      · exact Except.noConfusion h
      split at h
      · exact Except.noConfusion h
      split at h
      · exact Except.noConfusion h
      split at h
      · exact Except.noConfusion h
      split at h
      · exact Except.noConfusion h
      split at h
      · exact Except.noConfusion h
      injection h with h
      subst h
      exact ⟨rfl, rfl, rfl, rfl, rfl⟩
  · intro url hurl
    refine ⟨?_, ?_, ?_, ?_, ?_, ?_⟩ <;> intro hX <;>
    · unfold Config.from_env
      rw [hurl]
      repeat' first
        | exact ⟨_, rfl⟩
        | split
      all_goals simp_all

/-- Claim C5, witness: the amended theorem applied to a concrete
environment whose PORT parses to the out-of-range value 0, which is
rejected at startup. -/
theorem c5_validation_witness :
    (envPortZero "DATABASE_URL" = some "postgres://db" ∧
      (parse_u16_env envPortZero "PORT").getD 8080 = 0) ∧
    ∃ e, Config.from_env envPortZero = .error e :=
  ⟨⟨rfl, rfl⟩,
   ((c5_validation_and_defaults envPortZero).2.2 "postgres://db" rfl).2.1 rfl⟩

/-- Claim C6: a GET /api/item/1 request against a store without a record
for id 1 produces a 404 response whose body is the JSON error object
"Item 1 not found", and the request counter series for labels
GET, /api/item/\x7bid\x7d, 404 rises by exactly 1 over the request. -/
theorem c6_item_not_found_404 : ∀ (store : Store) (reg : Registry) (elapsed : ℚ),
    store 1 = .notFound →
    ∃ r : Response,
      (pipeline "GET" "/api/item/1" (matchRoute "/api/item/1")
        (.ok (routeItem store "/api/item/1")) elapsed).outcome = .ok r ∧
      r.status = 404 ∧
      r.body = "\x7b\"error\":\"Item 1 not found\"\x7d" ∧
      Registry.counterValue
        (Registry.applyOps reg
          (pipeline "GET" "/api/item/1" (matchRoute "/api/item/1")
            (.ok (routeItem store "/api/item/1")) elapsed).ops)
        ["GET", "/api/item/\x7bid\x7d", "404"] =
      Registry.counterValue reg ["GET", "/api/item/\x7bid\x7d", "404"] + 1 := by
  intro store reg elapsed hstore
  have hroute : routeItem store "/api/item/1" =
      (AppError.NotFound "Item 1 not found").into_response := by
    unfold routeItem
    rw [show itemParam "/api/item/1" = some "1" from rfl]
    show (match parse_i32 "1" with
      | some id => (get_item store id).response
      | none => pathRejectionResponse) = _
    rw [show parse_i32 "1" = some 1 from rfl]
    show (get_item store 1).response = _
    unfold get_item
    rw [if_neg (by decide : ¬ (1:Int) ≤ 0), hstore]
    rfl
  rw [hroute]
  refine ⟨((AppError.NotFound "Item 1 not found").into_response).insertHeader
      "x-service" "rust-axum", rfl, rfl, rfl, ?_⟩
  rw [show (pipeline "GET" "/api/item/1" (matchRoute "/api/item/1")
        (.ok ((AppError.NotFound "Item 1 not found").into_response)) elapsed).ops =
      [ RegistryOp.addInFlight ["/api/item/\x7bid\x7d"] 1,
        RegistryOp.incReqTotal ["GET", "/api/item/\x7bid\x7d", "404"],
        RegistryOp.observeReqDuration ["GET", "/api/item/\x7bid\x7d", "404"] elapsed,
        RegistryOp.addInFlight ["/api/item/\x7bid\x7d"] (-1) ] from rfl]
  simp only [Registry.applyOps, List.foldl, Registry.applyOp, Registry.counterValue]
  rw [lookupAssoc_bumpAssoc_self]
  cases lookupAssoc ["GET", "/api/item/\x7bid\x7d", "404"] reg.counters <;> simp

/-- Claim C6, witness: the 404 scenario evaluated against the empty store
and the empty registry. -/
theorem c6_item_not_found_404_witness :
    emptyStore 1 = .notFound ∧
    ∃ r : Response,
      (pipeline "GET" "/api/item/1" (matchRoute "/api/item/1")
        (.ok (routeItem emptyStore "/api/item/1")) 0).outcome = .ok r ∧
      r.status = 404 ∧
      r.body = "\x7b\"error\":\"Item 1 not found\"\x7d" ∧
      Registry.counterValue
        (Registry.applyOps emptyRegistry
          (pipeline "GET" "/api/item/1" (matchRoute "/api/item/1")
            (.ok (routeItem emptyStore "/api/item/1")) 0).ops)
        ["GET", "/api/item/\x7bid\x7d", "404"] =
      Registry.counterValue emptyRegistry ["GET", "/api/item/\x7bid\x7d", "404"] + 1 :=
  ⟨rfl, c6_item_not_found_404 emptyStore emptyRegistry 0 rfl⟩

/-- Claim C7: for every non-positive id the handler answers 400 with the
JSON error body "id must be a positive integer" and never reaches the
store (validation precedes the query). -/
theorem c7_invalid_id_400_no_store_access : ∀ (store : Store) (id : Int), id ≤ 0 →
    (get_item store id).response.status = 400 ∧
    (get_item store id).response.body = "\x7b\"error\":\"id must be a positive integer\"\x7d" ∧
    (get_item store id).storeQueried = false := by
  intro store id h
  simp [get_item, if_pos h, AppError.into_response, jsonErrorBody, jsonEscape, escChar]

/-- Claim C7, witness: the validation theorem evaluated at id -5 against
the empty store. -/
theorem c7_invalid_id_witness :
    (-5 : Int) ≤ 0 ∧
    ((get_item emptyStore (-5)).response.status = 400 ∧
     (get_item emptyStore (-5)).response.body =
       "\x7b\"error\":\"id must be a positive integer\"\x7d" ∧
     (get_item emptyStore (-5)).storeQueried = false) :=
  ⟨by decide, c7_invalid_id_400_no_store_access emptyStore (-5) (by decide)⟩

/-- Claim C8: for every non-exempt request whose handler returns a
response, the middleware performs exactly the gauge increment before the
handler and, after it, in this order: the counter increment and histogram
observation for the label tuple method, path, code (the code being the
response's numeric status rendered in decimal, the elapsed value coming
from the abstracted monotonic clock), then the gauge decrement. -/
theorem c8_registry_ops_order : ∀ (method path : String) (res : Response) (elapsed : ℚ),
    ¬ path = "/metrics" → ¬ path = "/health" →
    (metrics_middleware method path (.ok res) elapsed).ops =
      [ .addInFlight [path] 1,
        .incReqTotal [method, path, toString res.status],
        .observeReqDuration [method, path, toString res.status] elapsed,
        .addInFlight [path] (-1) ] := by
  intro m p r e h1 h2
  simp [metrics_middleware, h1, h2]

/-- Claim C8, witness: the operation-order theorem on a concrete 200
response to the item route. -/
theorem c8_registry_ops_order_witness :
    (¬ "/api/item/\x7bid\x7d" = "/metrics" ∧ ¬ "/api/item/\x7bid\x7d" = "/health") ∧
    (metrics_middleware "GET" "/api/item/\x7bid\x7d" (.ok healthResponse) (1/100)).ops =
      [ .addInFlight ["/api/item/\x7bid\x7d"] 1,
        .incReqTotal ["GET", "/api/item/\x7bid\x7d", toString healthResponse.status],
        .observeReqDuration ["GET", "/api/item/\x7bid\x7d", toString healthResponse.status] (1/100),
        .addInFlight ["/api/item/\x7bid\x7d"] (-1) ] :=
  ⟨⟨by decide, by decide⟩,
   c8_registry_ops_order "GET" "/api/item/\x7bid\x7d" healthResponse (1/100)
     (by decide) (by decide)⟩

/-- Claim C9: the duration histogram has exactly the configured bucket
bounds 0.0005 to 1.0 seconds, and an observation increments the count of
every bucket whose upper bound is at least the observed value, adds the
value to the running sum, and is always counted (never discarded). -/
theorem c9_histogram_buckets_and_observe :
    svcBuckets = [5/10000, 1/1000, 2/1000, 5/1000, 1/100, 2/100, 5/100, 1/10, 2/10, 5/10, 1] ∧
    ∀ (h : HistState) (v : ℚ), h.bucketCounts.length = svcBuckets.length →
      (h.observe v).count = h.count + 1 ∧
      (h.observe v).sum = h.sum + v ∧
      ∀ i, i < svcBuckets.length →
        (h.observe v).bucketCounts.getD i 0 =
          h.bucketCounts.getD i 0 + (if v ≤ svcBuckets.getD i 0 then 1 else 0) := by
  refine ⟨by norm_num [svcBuckets], ?_⟩
  intro h v hlen
  refine ⟨rfl, rfl, ?_⟩
  intro i hi
  show (List.zipWith (fun ub c => if v ≤ ub then c + 1 else c) svcBuckets h.bucketCounts).getD i 0 = _
  rw [getD_zipWith_bucket _ svcBuckets h.bucketCounts i hi (hlen ▸ hi)]
  show (if v ≤ svcBuckets.getD i 0 then h.bucketCounts.getD i 0 + 1 else h.bucketCounts.getD i 0) =
    h.bucketCounts.getD i 0 + (if v ≤ svcBuckets.getD i 0 then 1 else 0)
  by_cases hv : v ≤ svcBuckets.getD i 0
  · rw [if_pos hv, if_pos hv]
  · rw [if_neg hv, if_neg hv]
    rfl

/-- Claim C9, witness: one observation of 3 milliseconds on a fresh series
lands in every bucket from the 5 millisecond bound upward. -/
theorem c9_histogram_witness :
    histNew.bucketCounts.length = svcBuckets.length ∧
    ((histNew.observe (3/1000)).count = histNew.count + 1 ∧
     (histNew.observe (3/1000)).sum = histNew.sum + 3/1000 ∧
     ∀ i, i < svcBuckets.length →
       (histNew.observe (3/1000)).bucketCounts.getD i 0 =
         histNew.bucketCounts.getD i 0 + (if (3/1000 : ℚ) ≤ svcBuckets.getD i 0 then 1 else 0)) :=
  ⟨rfl, c9_histogram_buckets_and_observe.2 histNew (3/1000) rfl⟩

/-- Claim C10: every configuration from_env accepts has a port in 1..65535,
a positive pool maximum at least the pool minimum, both timeouts in 1..60
seconds, and a database_url carrying one of the two postgres schemes. -/
theorem c10_config_postconditions : ∀ (env : Env) (cfg : Config),
    Config.from_env env = .ok cfg →
    (1 ≤ cfg.port ∧ cfg.port ≤ 65535) ∧
    1 ≤ cfg.pool_max_connections ∧
    cfg.pool_min_connections ≤ cfg.pool_max_connections ∧
    (1 ≤ cfg.db_connect_timeout_secs ∧ cfg.db_connect_timeout_secs ≤ 60) ∧
    (1 ≤ cfg.db_acquire_timeout_secs ∧ cfg.db_acquire_timeout_secs ≤ 60) ∧
    (strStartsWith cfg.database_url "postgres://" ||
      strStartsWith cfg.database_url "postgresql://") = true := by
  intro env cfg h
  unfold Config.from_env at h
  split at h
  · exact Except.noConfusion h
  next url hurl =>
    split at h
    · exact Except.noConfusion h
    next hpre =>
      split at h
      · exact Except.noConfusion h
      next hport =>
        split at h
        · exact Except.noConfusion h
        next hmax =>
          split at h
          · exact Except.noConfusion h
          next hminmax =>
            split at h
            · exact Except.noConfusion h
            next hct =>
              split at h
              · exact Except.noConfusion h
              next hat =>
                injection h with h
                subst h
                push_neg at hct hat hminmax
                have hpre' : (strStartsWith url "postgres://" ||
                    strStartsWith url "postgresql://") = true := by
                  revert hpre
                  cases strStartsWith url "postgres://" <;>
                    cases strStartsWith url "postgresql://" <;> simp
                refine ⟨⟨Nat.pos_of_ne_zero hport, ?_⟩, Nat.pos_of_ne_zero hmax,
                  hminmax, ⟨Nat.pos_of_ne_zero hct.1, hct.2⟩,
                  ⟨Nat.pos_of_ne_zero hat.1, hat.2⟩, hpre'⟩
                show (parse_u16_env env "PORT").getD 8080 ≤ 65535
                cases hp : parse_u16_env env "PORT" with
                | none => simp [hp]
                | some m => simpa [hp] using parse_u16_env_le env "PORT" m hp

/-- Claim C10, witness: the postcondition theorem applied to the minimal
valid environment, whose accepted configuration is the all-defaults one. -/
theorem c10_config_postconditions_witness :
    Config.from_env envMinimal =
      .ok { database_url := "postgres://db", port := 8080, pool_max_connections := 10,
            pool_min_connections := 0, db_connect_timeout_secs := 5,
            db_acquire_timeout_secs := 2 } ∧
    ((1 ≤ (8080:Nat) ∧ (8080:Nat) ≤ 65535) ∧
     1 ≤ (10:Nat) ∧ (0:Nat) ≤ 10 ∧
     (1 ≤ (5:Nat) ∧ (5:Nat) ≤ 60) ∧ (1 ≤ (2:Nat) ∧ (2:Nat) ≤ 60) ∧
     (strStartsWith "postgres://db" "postgres://" ||
       strStartsWith "postgres://db" "postgresql://") = true) :=
  ⟨rfl, c10_config_postconditions envMinimal
    { database_url := "postgres://db", port := 8080, pool_max_connections := 10,
      pool_min_connections := 0, db_connect_timeout_secs := 5,
      db_acquire_timeout_secs := 2 } rfl⟩

end Svc
